import Mathlib

/-!
Verification development for the laser-tag tournament system
(Coordinator = `GameViewer` in `CompetitionSystem/GameViewer/game_viewer.py`,
OperatorProxy = `RobotControlGUI` in `CompetitionSystem/Laptop/laptop_control.py`,
RobotAgent = `IRController`/`GameClient` in `Pi/ir_controller.py`, `Pi/game_client.py`).

The Python sources are shallowly embedded: dictionaries become functions
`Nat → Option _` or association lists, wall-clock instants (`time.time()`)
are modelled as integers, and every handler becomes a pure state-transition
function that also returns the list of UDP messages it attempts to send.
-/

namespace LaserTag

/-! ### Configuration constants (the `GV_CONFIG` defaults in game_viewer.py) -/

def points_per_hit : Int := 10

def points_tesseract_retrieval : Int := 15

def points_tesseract_steal : Int := 20

def points_tesseract_possession : Int := 30

def robot_disable_duration : Int := 10

def game_duration : Int := 120

def video_ports_start : Nat := 5001

/-! ### Data model of the Coordinator (`GameViewer`) -/

/-- One entry of `GameViewer.teams` (see `register_team`, lines 804-829). -/
structure Team where
  team_id : Nat
  team_name : String
  robot_name : String
  points : Int
  kills : Nat
  deaths : Nat
  ready : Bool
  addr_ip : String
  addr_port : Nat
  laptop_ip : String
  listen_port : Option Nat
  last_heartbeat : Int
  video_port : Nat
deriving DecidableEq

/-- The `data` dict of an incoming `HIT_REPORT` message, as built by
`IRController.on_hit_received` (ir_controller.py lines 174-179). -/
structure HitData where
  attacking_team : Nat
  defending_team : Nat
  game_time : Int
  timestamp : Int
deriving DecidableEq

/-- A record of `GameViewer.hit_log`: `process_hit` stores the incoming
`hit_data` dict after overwriting its `timestamp` field (lines 864-866). -/
structure Hit where
  attacking_team : Nat
  defending_team : Nat
  game_time : Int
  ts : Int
deriving DecidableEq

/-- A UDP message the Coordinator attempts to send, tagged with the
destination team.  `FORCE_READY` is included because the OperatorProxy has a
handler for it (laptop_control.py line 1028). -/
inductive Msg where
  | registerAck (tid : Nat)
  | gameStart (tid : Nat) (duration : Int)
  | gameEnd (tid : Nat)
  | forceReady (tid : Nat) (reason : String)
  | robotDisabled (tid : Nat) (disabled_by : String) (disabled_by_id : Nat)
      (duration : Int) (disabled_until : Int)
  | robotEnabled (tid : Nat) (ts : Int)
  | pointsUpdate (tid : Nat) (points : Int) (kills : Nat) (deaths : Nat)
  | readyCheck (tid : Nat)
deriving DecidableEq

/-- Discriminator for `FORCE_READY` messages. -/
def Msg.isForceReady : Msg → Bool
  | .forceReady _ _ => true
  | _ => false

/-- The mutable state of `GameViewer` (`__init__`, lines 49-73).  `teams` is
the dict `team_id -> team_data`; `roster` records its key set in insertion
order (Python dicts iterate in insertion order, used by `broadcast_message`);
`disabled_robots` is the dict `team_id -> disable_end_time`. -/
structure GVState where
  teams : Nat → Option Team
  roster : List Nat
  game_active : Bool
  game_start_time : Int
  game_time_remaining : Int
  game_ended_time : Int
  disabled_robots : List (Nat × Int)
  hit_log : List Hit
  participants : Option (List Nat)

/-- Initial Coordinator state (game_viewer.py `__init__`). -/
def initGV : GVState :=
  { teams := fun _ => none
    roster := []
    game_active := false
    game_start_time := 0
    game_time_remaining := 0
    game_ended_time := 0
    disabled_robots := []
    hit_log := []
    participants := none }

/-! ### Helpers for the dict embeddings -/

/-- Point update of one entry of the `teams` dict. -/
def modifyTeam (s : GVState) (tid : Nat) (f : Team → Team) : GVState :=
  { s with teams := fun t => if t = tid then (s.teams t).map f else s.teams t }

/-- Lookup in the `disabled_robots` dict. -/
def lookupD (l : List (Nat × Int)) (k : Nat) : Option Int :=
  (l.find? (fun p => p.1 == k)).map (fun p => p.2)

/-- Upsert into the `disabled_robots` dict
(`self.disabled_robots[defender_id] = disable_until`). -/
def upsertD (l : List (Nat × Int)) (k : Nat) (v : Int) : List (Nat × Int) :=
  if l.any (fun p => p.1 == k) then l.map (fun p => if p.1 == k then (k, v) else p)
  else l ++ [(k, v)]

/-- `GameViewer.send_to_team` (lines 877-894): the message is handed to the
socket only when the team is registered and has a known listen port
(`laptop_ip` is always set for a registered team, so only `listen_port`
can fail the guard). -/
def sendToTeam (s : GVState) (tid : Nat) (m : Msg) : Option Msg :=
  match s.teams tid with
  | some tm => match tm.listen_port with
    | some _ => some m
    | none => none
  | none => none

/-- `GameViewer.send_points_update` (lines 896-910). -/
def pointsUpdateMsg (s : GVState) (tid : Nat) : List Msg :=
  match s.teams tid with
  | some tm => (sendToTeam s tid (Msg.pointsUpdate tid tm.points tm.kills tm.deaths)).toList
  | none => []

/-! ### Coordinator message handlers -/

/-- `GameViewer.register_team` (lines 804-829).  A new team gets a fresh
entry with zero scores; a known team has only `laptop_ip`, `listen_port` and
`last_heartbeat` refreshed, and that only when the message carried a
`listen_port`. -/
def register_team (s : GVState) (tid : Nat) (tname rname : String)
    (ip : String) (port : Nat) (lp : Option Nat) (now : Int) : GVState :=
  match s.teams tid with
  | none =>
    let tm : Team :=
      { team_id := tid, team_name := tname, robot_name := rname
        points := 0, kills := 0, deaths := 0, ready := false
        addr_ip := ip, addr_port := port, laptop_ip := ip
        listen_port := lp, last_heartbeat := now
        video_port := video_ports_start + tid - 1 }
    { s with teams := fun t => if t = tid then some tm else s.teams t
             roster := s.roster ++ [tid] }
  | some _ =>
    match lp with
    | some p =>
      modifyTeam s tid (fun tm =>
        { tm with laptop_ip := ip, listen_port := some p, last_heartbeat := now })
    | none => s

/-- The `HEARTBEAT` branch of `GameViewer.handle_message` (lines 782-786). -/
def heartbeat_update (s : GVState) (tid : Nat) (ip : String) (port : Nat)
    (now : Int) : GVState :=
  match s.teams tid with
  | some _ => modifyTeam s tid (fun tm =>
      { tm with last_heartbeat := now, addr_ip := ip, addr_port := port })
  | none => s

/-- The `READY_STATUS` branch of `GameViewer.handle_message` (lines 792-795). -/
def ready_status_update (s : GVState) (tid : Nat) (r : Bool) : GVState :=
  match s.teams tid with
  | some _ => modifyTeam s tid (fun tm => { tm with ready := r })
  | none => s

/-- The hit record appended by `process_hit`: the robot's `hit_data` with its
`timestamp` overwritten by the Coordinator's wall clock (lines 861-866). -/
def mkHit (hd : HitData) (now : Int) : Hit :=
  { attacking_team := hd.attacking_team, defending_team := hd.defending_team
    game_time := hd.game_time, ts := now }

/-- The attacker's score update in `process_hit` (lines 839-841). -/
def killF (tm : Team) : Team :=
  { tm with points := tm.points + points_per_hit, kills := tm.kills + 1 }

/-- The defender's score update in `process_hit` (line 844). -/
def deathF (tm : Team) : Team := { tm with deaths := tm.deaths + 1 }

/-- `GameViewer.process_hit` (lines 831-875), verbatim: the only check is
that both team ids are registered.  `game_active`, self-hits, the attacker's
disabled state and duplicate reports are not consulted.  On acceptance the
attacker gains `points_per_hit` points and a kill, the defender a death, the
defender is marked disabled until `now + robot_disable_duration`, the hit is
appended, and `ROBOT_DISABLED` plus two `POINTS_UPDATE` messages are sent. -/
def process_hit (s : GVState) (now : Int) (hd : HitData) : GVState × List Msg :=
  match s.teams hd.attacking_team, s.teams hd.defending_team with
  | some _, some _ =>
    let a := hd.attacking_team
    let d := hd.defending_team
    let s1 := modifyTeam s a killF
    let s2 := modifyTeam s1 d deathF
    let du := now + robot_disable_duration
    let s3 := { s2 with disabled_robots := upsertD s2.disabled_robots d du }
    let s4 := { s3 with hit_log := s3.hit_log ++ [mkHit hd now] }
    let disMsg : List Msg :=
      match s4.teams a with
      | some ta =>
        (sendToTeam s4 d (Msg.robotDisabled d ta.team_name a robot_disable_duration du)).toList
      | none => []
    (s4, disMsg ++ pointsUpdateMsg s4 a ++ pointsUpdateMsg s4 d)
  | _, _ => (s, [])

/-- Resetting one team's scores at match start (lines 1063-1066). -/
def resetScore (tm : Team) : Team := { tm with points := 0, kills := 0, deaths := 0 }

/-- The score-reset loop of `start_game_with_teams`
(`for team_id in selected_team_ids: ...`). -/
def resetAll (s : GVState) (l : List Nat) : GVState :=
  l.foldl (fun acc tid => modifyTeam acc tid resetScore) s

/-- `GameViewer.start_game_with_teams` (lines 1043-1089).  `confirm` is the
operator's answer to the "Not All Ready" confirmation dialog; if some
selected team is unready and the operator declines, nothing happens.
Otherwise the game is started: scores are reset for the selected teams only,
the whole `hit_log` is cleared, and a `GAME_START` message is sent to each
selected team.  No `FORCE_READY` message is sent anywhere. -/
def start_game_with_teams (s : GVState) (now : Int) (selected : List Nat)
    (confirm : Bool) : GVState × List Msg :=
  let readyCount := selected.countP (fun tid => ((s.teams tid).map Team.ready).getD false)
  if readyCount < selected.length ∧ confirm = false then (s, [])
  else
    let s1 := { s with game_active := true, game_start_time := now
                       game_time_remaining := game_duration, game_ended_time := 0
                       disabled_robots := [] }
    let s2 := resetAll s1 selected
    let s3 := { s2 with hit_log := [] }
    (s3, selected.filterMap (fun tid => sendToTeam s3 tid (Msg.gameStart tid game_duration)))

/-- `start_selected_game` inside `open_team_selection_dialog`
(lines 1009-1033) plus the surrounding GUI constraints: the dialog only
offers registered teams, requires between 1 and 4 selections, stores
`participating_teams` before calling `start_game_with_teams`, and the
Start-Game button is disabled while a game is active (line 1083). -/
def start_selected_game (s : GVState) (now : Int) (selected : List Nat)
    (confirm : Bool) : GVState × List Msg :=
  if s.game_active then (s, [])
  else if selected.length = 0 then (s, [])
  else if 4 < selected.length then (s, [])
  else if ¬ (selected.all (fun tid => (s.teams tid).isSome)) then (s, [])
  else
    let s1 := { s with participants := some selected }
    start_game_with_teams s1 now selected confirm

/-- `GameViewer.end_game` (lines 1091-1116): clears `game_active`, stamps
`game_ended_time`, and sends `GAME_END` to the participating teams (or to
the whole roster when no match was ever selected). -/
def end_game (s : GVState) (now : Int) : GVState × List Msg :=
  let s' := { s with game_active := false, game_ended_time := now }
  (s', (match s.participants with
        | some ps => ps
        | none => s.roster).filterMap (fun tid => sendToTeam s' tid (Msg.gameEnd tid)))

/-- The disable-expiry portion of `GameViewer.update_gui` (lines 1314-1328):
entries whose `disable_until` has passed are removed and a `ROBOT_ENABLED`
message is sent to each. -/
def update_gui_disable_scan (s : GVState) (now : Int) : GVState × List Msg :=
  let expired := s.disabled_robots.filter (fun p => decide (p.2 ≤ now))
  let s' := { s with disabled_robots := s.disabled_robots.filter (fun p => decide (now < p.2)) }
  (s', expired.filterMap (fun p => sendToTeam s' p.1 (Msg.robotEnabled p.1 now)))

/-- `RefereeHandler.do_GET` for `/api/teams`: the `can_award_points` field
(lines 406-410).  `game_ended_time` always exists (set to 0 in `__init__`). -/
def can_award_points (s : GVState) (now : Int) : Bool :=
  s.game_active || (decide (0 < s.game_ended_time) && decide (now - s.game_ended_time < 300))

/-- `RefereeHandler.do_POST` for `/api/award_points` (lines 418-464):
returns the HTTP status code, the new state, and the messages sent.  The
handler checks only that the team is known and the category is one of the
three Tesseract categories; it never consults `game_active`,
`game_ended_time` or `can_award_points`, and it has no 403 branch. -/
def award_points (s : GVState) (tid : Nat) (cat : String) : Nat × GVState × List Msg :=
  match s.teams tid with
  | some _ =>
    if cat = "tesseract_retrieval" then
      let s' := modifyTeam s tid (fun tm =>
        { tm with points := tm.points + points_tesseract_retrieval })
      (200, s', pointsUpdateMsg s' tid)
    else if cat = "tesseract_steal" then
      let s' := modifyTeam s tid (fun tm =>
        { tm with points := tm.points + points_tesseract_steal })
      (200, s', pointsUpdateMsg s' tid)
    else if cat = "tesseract_possession" then
      let s' := modifyTeam s tid (fun tm =>
        { tm with points := tm.points + points_tesseract_possession })
      (200, s', pointsUpdateMsg s' tid)
    else (400, s, [])
  | none => (404, s, [])

/-! ### Event system: one constructor per externally triggered Coordinator
handler.  `REGISTER` and `DISCOVERY_RESPONSE` are handled identically
(`handle_message`, lines 775-802), so one `register` event covers both. -/

inductive Event where
  | register (tid : Nat) (tname rname ip : String) (port : Nat)
      (lp : Option Nat) (now : Int)
  | heartbeat (tid : Nat) (ip : String) (port : Nat) (now : Int)
  | hitReport (hd : HitData) (now : Int)
  | readyStatus (tid : Nat) (r : Bool)
  | startGame (selected : List Nat) (confirm : Bool) (now : Int)
  | endGame (now : Int)
  | award (tid : Nat) (cat : String)
  | scan (now : Int)

/-- Dispatch of one event to the corresponding handler, returning the new
state and the messages the Coordinator attempts to send.  After a
registration the Coordinator replies `REGISTER_ACK` (lines 779-780). -/
def apply_event (s : GVState) (e : Event) : GVState × List Msg :=
  match e with
  | .register tid tname rname ip port lp now =>
    let s' := register_team s tid tname rname ip port lp now
    (s', (sendToTeam s' tid (Msg.registerAck tid)).toList)
  | .heartbeat tid ip port now => (heartbeat_update s tid ip port now, [])
  | .hitReport hd now => process_hit s now hd
  | .readyStatus tid r => (ready_status_update s tid r, [])
  | .startGame selected confirm now => start_selected_game s now selected confirm
  | .endGame now => end_game s now
  | .award tid cat =>
    let r := award_points s tid cat
    (r.2.1, r.2.2)
  | .scan now => update_gui_disable_scan s now

/-- State component of one event. -/
def step (s : GVState) (e : Event) : GVState := (apply_event s e).1

/-- Messages emitted on one event. -/
def emit (s : GVState) (e : Event) : List Msg := (apply_event s e).2

/-- A reachable Coordinator state: the fold of a trace of events over the
initial state. -/
def run (evs : List Event) : GVState := evs.foldl step initGV

/-- Number of hit records naming `t` as attacker (spec invariant 1). -/
def countAtt (t : Nat) (log : List Hit) : Nat :=
  log.countP (fun h => h.attacking_team == t)

/-- Number of hit records naming `t` as defender (spec invariant 2). -/
def countDef (t : Nat) (log : List Hit) : Nat :=
  log.countP (fun h => h.defending_team == t)

/-! ### RobotAgent: `IRController` (Pi/ir_controller.py) -/

/-- The per-controller configuration values read from `config['ir_system']`
(ir_controller.py lines 38-40). -/
structure IRConfig where
  hit_disable_time : Int
  weapon_cooldown : Int
deriving DecidableEq

/-- One entry of `IRController.hit_log` (lines 174-179). -/
structure IRHitRecord where
  game_time : Int
  attacking_team : Nat
  defending_team : Nat
deriving DecidableEq

/-- The mutable hit/fire state of `IRController` (lines 41-49). -/
structure IRState where
  team_id : Nat
  is_hit : Bool
  hit_by_team : Nat
  hit_time : Int
  time_remaining : Int
  last_fire_time : Int
  hit_log : List IRHitRecord
  game_start_time : Option Int
deriving DecidableEq

/-- `IRController.fire` (lines 123-151): refuses while hit-disabled or
within the weapon cooldown; on success records the fire time.  Returns
whether the IR pulse train was emitted. -/
def ir_fire (cfg : IRConfig) (st : IRState) (now : Int) : Bool × IRState :=
  if st.is_hit then (false, st)
  else if now - st.last_fire_time < cfg.weapon_cooldown then (false, st)
  else (true, { st with last_fire_time := now })

/-- `IRController.on_hit_received` (lines 153-187): ignores the decode when
already hit or when the decoded id equals the robot's own `team_id`
(self-hit); otherwise marks itself disabled, logs the hit and sends one
`HIT_REPORT` to the Coordinator (`send_hit_to_gv` sends exactly once, with
no retransmission).  The returned Bool is whether a report was sent. -/
def ir_on_hit_received (cfg : IRConfig) (st : IRState) (now : Int)
    (attacking : Nat) : IRState × Bool :=
  if st.is_hit then (st, false)
  else if attacking = st.team_id then (st, false)
  else
    let gt : Int := match st.game_start_time with
      | some g => now - g
      | none => 0
    let hrec : IRHitRecord :=
      { game_time := gt, attacking_team := attacking, defending_team := st.team_id }
    ({ st with is_hit := true, hit_by_team := attacking, hit_time := now
               time_remaining := cfg.hit_disable_time
               hit_log := st.hit_log ++ [hrec] }, true)

/-- `IRController.update` (lines 207-222): once the local clock passes
`hit_time + hit_disable_time` the controller clears its own hit-disabled
state ("Respawning!") without any message from the Coordinator. -/
def ir_update (cfg : IRConfig) (st : IRState) (now : Int) : IRState :=
  if st.is_hit = false then st
  else
    let elapsed := now - st.hit_time
    if cfg.hit_disable_time ≤ elapsed then
      { st with is_hit := false, hit_by_team := 0, hit_time := 0, time_remaining := 0 }
    else { st with time_remaining := max 0 (cfg.hit_disable_time - elapsed) }

/-! ### OperatorProxy: `RobotControlGUI` (CompetitionSystem/Laptop/laptop_control.py) -/

/-- The disabled-overlay state of the laptop GUI. -/
structure LaptopDisabled where
  is_disabled : Bool
  disabled_by : String
  disabled_until : Int
  disabled_time_remaining : Int
deriving DecidableEq

/-- The disabled-countdown portion of `RobotControlGUI.update_gui`
(lines 1191-1203): when the locally computed remaining time reaches zero the
laptop clears its own disabled state ("AUTO RE-ENABLE") without waiting for
`ROBOT_ENABLED`. -/
def laptop_update_gui_disabled (st : LaptopDisabled) (now : Int) : LaptopDisabled :=
  if st.is_disabled then
    let rem := max 0 (st.disabled_until - now)
    if rem ≤ 0 then
      { is_disabled := false, disabled_by := "", disabled_until := 0
        disabled_time_remaining := 0 }
    else { st with disabled_time_remaining := rem }
  else st

/-- The observable score state the laptop keeps (`points`, `hits_taken`;
the GUI stores deaths as `hits_taken` and does not store kills). -/
structure LaptopScore where
  points : Int
  hits_taken : Nat
deriving DecidableEq

/-- A `POINTS_UPDATE` message body; each field may be absent from the JSON
dict, hence `Option`. -/
structure PointsMsg where
  points : Option Int
  kills : Option Nat
  deaths : Option Nat
deriving DecidableEq

/-- The `POINTS_UPDATE` branch of `RobotControlGUI.handle_gv_message`
(lines 1093-1099): `points = message.get('points', self.points)` and
`hits_taken = message['deaths']` when present.  Both assignments are
absolute, not deltas. -/
def laptop_points_update (st : LaptopScore) (m : PointsMsg) : LaptopScore :=
  { points := m.points.getD st.points
    hits_taken := match m.deaths with
      | some d => d
      | none => st.hits_taken }

/-- The observable score state of the Pi's `GameClient` (game_client.py
lines 36-38). -/
structure ClientScore where
  points : Int
  kills : Nat
  deaths : Nat
deriving DecidableEq

/-- The `POINTS_UPDATE` branch of `GameClient._handle_message`
(lines 226-233): all three fields are overwritten with the absolute values
carried by the message (defaulting to 0 when absent). -/
def client_points_update (st : ClientScore) (m : PointsMsg) : ClientScore :=
  { points := m.points.getD 0
    kills := m.kills.getD 0
    deaths := m.deaths.getD 0 }

/-! ### Derived notions and concrete traces used by the checks below -/

/-- The participant list of the current match (`participating_teams`;
empty before the first team selection). -/
def parts (s : GVState) : List Nat := s.participants.getD []

/-- While a game is active, every participant's `kills`/`deaths` counters
agree with the hit log. -/
def scoreInv (s : GVState) : Prop :=
  s.game_active = true →
    ∀ t ∈ parts s, ∃ tm, s.teams t = some tm ∧
      tm.kills = countAtt t s.hit_log ∧ tm.deaths = countDef t s.hit_log

/-- Registration of teams 1 ("Alpha") and 2 ("Bravo"). -/
def regAB : List Event :=
  [.register 1 "Alpha" "RobotA" "10.0.0.1" 40000 (some 6101) 0,
   .register 2 "Bravo" "RobotB" "10.0.0.2" 40001 (some 6102) 0]

/-- Registration of a third team 3 ("Charlie"). -/
def regABC : List Event :=
  regAB ++ [.register 3 "Charlie" "RobotC" "10.0.0.3" 40002 (some 6103) 0]

/-- Three teams registered, a match started at t = 0, and a hit of team 2 on
team 1 processed at t = 5 (so team 1 is disabled until t = 15). -/
def evsDisabled : List Event :=
  regABC ++ [.startGame [1, 2, 3] true 0, .hitReport ⟨2, 1, 5, 5⟩ 5]

/-- The trace of `evsDisabled` followed by the match ending at t = 20 and a
second match starting at t = 30 with teams 1 and 3 only: team 2 keeps its
kill counter from the first match while the whole hit log is cleared. -/
def evsTwoMatches : List Event :=
  evsDisabled ++ [.endGame 20, .startGame [1, 3] true 30]

end LaserTag

namespace LaserTag

/-! ### Structural lemmas about the Coordinator handlers -/

theorem modifyTeam_teams (s : GVState) (tid : Nat) (f : Team → Team) (t : Nat) :
    (modifyTeam s tid f).teams t = if t = tid then (s.teams t).map f else s.teams t := rfl

theorem resetScore_idem (tm : Team) : resetScore (resetScore tm) = resetScore tm := rfl

theorem resetAll_teams (l : List Nat) (s : GVState) (t : Nat) :
    (resetAll s l).teams t = if t ∈ l then (s.teams t).map resetScore else s.teams t := by
  induction l generalizing s with
  | nil => simp [resetAll]
  | cons x xs ih =>
    show (resetAll (modifyTeam s x resetScore) xs).teams t = _
    rw [ih]
    by_cases hx : t = x
    · subst hx
      by_cases hm : t ∈ xs
      · simp only [hm, if_true, List.mem_cons, true_or, modifyTeam_teams, if_pos rfl]
        cases s.teams t with
        | none => rfl
        | some tm => simp [resetScore_idem]
      · simp [hm, modifyTeam_teams, List.mem_cons]
    · by_cases hm : t ∈ xs
      · simp [hm, modifyTeam_teams, hx, List.mem_cons]
      · simp [hm, modifyTeam_teams, hx, List.mem_cons]

theorem resetAll_participants (l : List Nat) (s : GVState) :
    (resetAll s l).participants = s.participants := by
  induction l generalizing s with
  | nil => rfl
  | cons x xs ih => exact ih (modifyTeam s x resetScore)

theorem resetAll_game_active (l : List Nat) (s : GVState) :
    (resetAll s l).game_active = s.game_active := by
  induction l generalizing s with
  | nil => rfl
  | cons x xs ih => exact ih (modifyTeam s x resetScore)

theorem countAtt_nil (t : Nat) : countAtt t [] = 0 := rfl

theorem countDef_nil (t : Nat) : countDef t [] = 0 := rfl

theorem mkHit_att (hd : HitData) (now : Int) :
    (mkHit hd now).attacking_team = hd.attacking_team := rfl

theorem mkHit_def (hd : HitData) (now : Int) :
    (mkHit hd now).defending_team = hd.defending_team := rfl

theorem countAtt_append (t : Nat) (l : List Hit) (h : Hit) :
    countAtt t (l ++ [h]) = countAtt t l + if h.attacking_team = t then 1 else 0 := by
  simp [countAtt, List.countP_append, List.countP_cons]

theorem countDef_append (t : Nat) (l : List Hit) (h : Hit) :
    countDef t (l ++ [h]) = countDef t l + if h.defending_team = t then 1 else 0 := by
  simp [countDef, List.countP_append, List.countP_cons]

theorem sendToTeam_eq (s : GVState) (tid : Nat) (m m' : Msg)
    (h : sendToTeam s tid m = some m') : m' = m := by
  unfold sendToTeam at h
  split at h
  · split at h
    · exact (Option.some_inj.mp h).symm
    · cases h
  · cases h

/-- Characterization of `process_hit` when both teams are registered. -/
theorem process_hit_accept (s : GVState) (now : Int) (hd : HitData)
    (ha : (s.teams hd.attacking_team).isSome = true)
    (hb : (s.teams hd.defending_team).isSome = true) :
    (process_hit s now hd).1 =
      { modifyTeam (modifyTeam s hd.attacking_team killF) hd.defending_team deathF with
        disabled_robots :=
          upsertD s.disabled_robots hd.defending_team (now + robot_disable_duration)
        hit_log := s.hit_log ++ [mkHit hd now] } := by
  obtain ⟨ta, ha'⟩ := Option.isSome_iff_exists.mp ha
  obtain ⟨tb, hb'⟩ := Option.isSome_iff_exists.mp hb
  unfold process_hit
  rw [ha', hb']
  rfl

/-- `process_hit` drops the report when a team id is unregistered. -/
theorem process_hit_drop (s : GVState) (now : Int) (hd : HitData)
    (h : (s.teams hd.attacking_team) = none ∨ (s.teams hd.defending_team) = none) :
    process_hit s now hd = (s, []) := by
  unfold process_hit
  cases ha : s.teams hd.attacking_team with
  | none => cases hb : s.teams hd.defending_team <;> rfl
  | some ta =>
    cases hb : s.teams hd.defending_team with
    | none => rfl
    | some tb =>
      rcases h with h | h
      · rw [ha] at h; cases h
      · rw [hb] at h; cases h

/-! ### The kills/deaths bookkeeping invariant (spec invariants 1 and 2) -/

theorem scoreInv_modify (s : GVState) (tid : Nat) (f : Team → Team)
    (hk : ∀ tm, (f tm).kills = tm.kills) (hdd : ∀ tm, (f tm).deaths = tm.deaths)
    (inv : scoreInv s) : scoreInv (modifyTeam s tid f) := by
  intro hact t htp
  obtain ⟨tm, htm, h1, h2⟩ := inv hact t htp
  by_cases h : t = tid
  · subst h
    exact ⟨f tm, by simp [modifyTeam_teams, htm], by rw [hk]; exact h1,
      by rw [hdd]; exact h2⟩
  · exact ⟨tm, by simp [modifyTeam_teams, h, htm], h1, h2⟩

theorem scoreInv_step (s : GVState) (e : Event) (inv : scoreInv s) :
    scoreInv (step s e) := by
  cases e with
  | register tid tname rname ip port lp now =>
    show scoreInv (register_team s tid tname rname ip port lp now)
    unfold register_team
    cases hs : s.teams tid with
    | none =>
      intro hact t htp
      obtain ⟨tm, htm, h1, h2⟩ := inv hact t htp
      by_cases h : t = tid
      · subst h; rw [hs] at htm; cases htm
      · exact ⟨tm, by simp [h, htm], h1, h2⟩
    | some tm0 =>
      cases lp with
      | none => exact inv
      | some p => exact scoreInv_modify s tid _ (fun _ => rfl) (fun _ => rfl) inv
  | heartbeat tid ip port now =>
    show scoreInv (heartbeat_update s tid ip port now)
    unfold heartbeat_update
    cases hs : s.teams tid with
    | none => exact inv
    | some tm0 => exact scoreInv_modify s tid _ (fun _ => rfl) (fun _ => rfl) inv
  | readyStatus tid r =>
    show scoreInv (ready_status_update s tid r)
    unfold ready_status_update
    cases hs : s.teams tid with
    | none => exact inv
    | some tm0 => exact scoreInv_modify s tid _ (fun _ => rfl) (fun _ => rfl) inv
  | hitReport hd now =>
    show scoreInv (process_hit s now hd).1
    cases ha : s.teams hd.attacking_team with
    | none => rw [process_hit_drop s now hd (Or.inl ha)]; exact inv
    | some ta0 =>
      cases hb : s.teams hd.defending_team with
      | none => rw [process_hit_drop s now hd (Or.inr hb)]; exact inv
      | some tb0 =>
        rw [process_hit_accept s now hd (by rw [ha]; rfl) (by rw [hb]; rfl)]
        intro hact t htp
        obtain ⟨tm, htm, h1, h2⟩ := inv hact t htp
        have hlookup :
            (modifyTeam (modifyTeam s hd.attacking_team killF) hd.defending_team deathF).teams t =
              if t = hd.defending_team then
                (if t = hd.attacking_team then (s.teams t).map killF else s.teams t).map deathF
              else if t = hd.attacking_team then (s.teams t).map killF else s.teams t := rfl
        by_cases hta : t = hd.attacking_team <;> by_cases htd : t = hd.defending_team
        · refine ⟨deathF (killF tm), ?_, ?_, ?_⟩
          · show (modifyTeam (modifyTeam s hd.attacking_team killF)
                hd.defending_team deathF).teams t = _
            rw [hlookup, if_pos htd, if_pos hta, htm]
            rfl
          · show (killF tm).kills = countAtt t (s.hit_log ++ [mkHit hd now])
            rw [countAtt_append, mkHit_att]
            show tm.kills + 1 = _
            rw [h1, if_pos (hta.symm : hd.attacking_team = t)]
          · show (deathF (killF tm)).deaths = countDef t (s.hit_log ++ [mkHit hd now])
            rw [countDef_append, mkHit_def]
            show tm.deaths + 1 = _
            rw [h2, if_pos (htd.symm : hd.defending_team = t)]
        · refine ⟨killF tm, ?_, ?_, ?_⟩
          · show (modifyTeam (modifyTeam s hd.attacking_team killF)
                hd.defending_team deathF).teams t = _
            rw [hlookup, if_neg htd, if_pos hta, htm]
            rfl
          · show (killF tm).kills = countAtt t (s.hit_log ++ [mkHit hd now])
            rw [countAtt_append, mkHit_att]
            show tm.kills + 1 = _
            rw [h1, if_pos (hta.symm : hd.attacking_team = t)]
          · show (killF tm).deaths = countDef t (s.hit_log ++ [mkHit hd now])
            rw [countDef_append, mkHit_def]
            show tm.deaths = _
            rw [h2, if_neg (fun hh => htd (hh.symm : t = hd.defending_team))]
            rfl
        · refine ⟨deathF tm, ?_, ?_, ?_⟩
          · show (modifyTeam (modifyTeam s hd.attacking_team killF)
                hd.defending_team deathF).teams t = _
            rw [hlookup, if_pos htd, if_neg hta, htm]
            rfl
          · show (deathF tm).kills = countAtt t (s.hit_log ++ [mkHit hd now])
            rw [countAtt_append, mkHit_att]
            show tm.kills = _
            rw [h1, if_neg (fun hh => hta (hh.symm : t = hd.attacking_team))]
            rfl
          · show (deathF tm).deaths = countDef t (s.hit_log ++ [mkHit hd now])
            rw [countDef_append, mkHit_def]
            show tm.deaths + 1 = _
            rw [h2, if_pos (htd.symm : hd.defending_team = t)]
        · refine ⟨tm, ?_, ?_, ?_⟩
          · show (modifyTeam (modifyTeam s hd.attacking_team killF)
                hd.defending_team deathF).teams t = _
            rw [hlookup, if_neg htd, if_neg hta]
            exact htm
          · show tm.kills = countAtt t (s.hit_log ++ [mkHit hd now])
            rw [countAtt_append, mkHit_att]
            rw [h1, if_neg (fun hh => hta (hh.symm : t = hd.attacking_team))]
            rfl
          · show tm.deaths = countDef t (s.hit_log ++ [mkHit hd now])
            rw [countDef_append, mkHit_def]
            rw [h2, if_neg (fun hh => htd (hh.symm : t = hd.defending_team))]
            rfl
  | startGame sel confirm now =>
    show scoreInv (start_selected_game s now sel confirm).1
    unfold start_selected_game
    split
    · exact inv
    next hact =>
      split
      · exact inv
      split
      · exact inv
      split
      · exact inv
      next hall =>
        rw [not_not] at hall
        unfold start_game_with_teams
        simp only []
        split
        · intro hact' _ _
          exact absurd hact' hact
        · intro _ t htp
          have hsel : t ∈ sel := by
            simpa [parts, resetAll_participants] using htp
          obtain ⟨tm0, htm0⟩ :=
            Option.isSome_iff_exists.mp (List.all_eq_true.mp hall t hsel)
          refine ⟨resetScore tm0, ?_, ?_, ?_⟩
          · show (resetAll _ sel).teams t = _
            rw [resetAll_teams]
            simp [hsel, htm0]
          · rfl
          · rfl
  | endGame now =>
    show scoreInv (end_game s now).1
    intro hact
    exact Bool.noConfusion hact
  | award tid cat =>
    show scoreInv (award_points s tid cat).2.1
    unfold award_points
    split
    · simp only []
      split
      · exact scoreInv_modify s tid _ (fun _ => rfl) (fun _ => rfl) inv
      split
      · exact scoreInv_modify s tid _ (fun _ => rfl) (fun _ => rfl) inv
      split
      · exact scoreInv_modify s tid _ (fun _ => rfl) (fun _ => rfl) inv
      · exact inv
    · exact inv
  | scan now =>
    show scoreInv (update_gui_disable_scan s now).1
    exact inv

end LaserTag

namespace LaserTag

theorem scoreInv_initGV : scoreInv initGV := by
  intro _ t htp
  exact absurd htp (List.not_mem_nil t)

theorem scoreInv_run (evs : List Event) : scoreInv (run evs) := by
  have h : ∀ (l : List Event) (s : GVState), scoreInv s → scoreInv (l.foldl step s) := by
    intro l
    induction l with
    | nil => intro s hs; exact hs
    | cons e l ih => intro s hs; exact ih (step s e) (scoreInv_step s e hs)
  exact h evs initGV scoreInv_initGV

/-- Summary of what one accepted hit does to the state: the record is
appended to the log, registration status of every team is unchanged, the
attacker gains one kill and `points_per_hit` points, the defender one
death. -/
theorem process_hit_effect (s : GVState) (now : Int) (hd : HitData)
    (ha : (s.teams hd.attacking_team).isSome = true)
    (hb : (s.teams hd.defending_team).isSome = true) :
    (process_hit s now hd).1.hit_log = s.hit_log ++ [mkHit hd now] ∧
    (∀ x, ((process_hit s now hd).1.teams x).isSome = (s.teams x).isSome) ∧
    ((process_hit s now hd).1.teams hd.attacking_team).map Team.kills
      = (s.teams hd.attacking_team).map (fun tm => tm.kills + 1) ∧
    ((process_hit s now hd).1.teams hd.attacking_team).map Team.points
      = (s.teams hd.attacking_team).map (fun tm => tm.points + points_per_hit) ∧
    ((process_hit s now hd).1.teams hd.defending_team).map Team.deaths
      = (s.teams hd.defending_team).map (fun tm => tm.deaths + 1) := by
  obtain ⟨ta, ha'⟩ := Option.isSome_iff_exists.mp ha
  obtain ⟨tb, hb'⟩ := Option.isSome_iff_exists.mp hb
  rw [process_hit_accept s now hd ha hb]
  refine ⟨rfl, ?_, ?_, ?_, ?_⟩
  · intro x
    show ((modifyTeam (modifyTeam s hd.attacking_team killF)
        hd.defending_team deathF).teams x).isSome = _
    simp only [modifyTeam_teams]
    split <;> split <;> (cases s.teams x <;> rfl)
  · show ((modifyTeam (modifyTeam s hd.attacking_team killF)
        hd.defending_team deathF).teams hd.attacking_team).map Team.kills = _
    by_cases had : hd.attacking_team = hd.defending_team <;>
      simp [modifyTeam_teams, had, ha', hb', killF, deathF]
  · show ((modifyTeam (modifyTeam s hd.attacking_team killF)
        hd.defending_team deathF).teams hd.attacking_team).map Team.points = _
    by_cases had : hd.attacking_team = hd.defending_team <;>
      simp [modifyTeam_teams, had, ha', hb', killF, deathF]
  · show ((modifyTeam (modifyTeam s hd.attacking_team killF)
        hd.defending_team deathF).teams hd.defending_team).map Team.deaths = _
    by_cases had : hd.defending_team = hd.attacking_team <;>
      simp [modifyTeam_teams, had, ha', hb', killF, deathF]

end LaserTag

namespace LaserTag

theorem mem_sendToTeam_toList (s : GVState) (tid : Nat) (m0 m : Msg)
    (h : m ∈ (sendToTeam s tid m0).toList) : m = m0 :=
  sendToTeam_eq s tid m0 m (Option.mem_def.mp (Option.mem_toList.mp h))

theorem pointsUpdateMsg_no_forceReady (s : GVState) (tid : Nat) (m : Msg)
    (h : m ∈ pointsUpdateMsg s tid) : m.isForceReady = false := by
  unfold pointsUpdateMsg at h
  split at h
  · rw [mem_sendToTeam_toList s tid _ m h]
    rfl
  · cases h

theorem process_hit_no_forceReady (s : GVState) (now : Int) (hd : HitData) (m : Msg)
    (h : m ∈ (process_hit s now hd).2) : m.isForceReady = false := by
  unfold process_hit at h
  split at h
  · simp only [] at h
    rcases List.mem_append.mp h with h1 | h2
    · rcases List.mem_append.mp h1 with h3 | h4
      · split at h3
        · rw [mem_sendToTeam_toList _ _ _ m h3]
          rfl
        · cases h3
      · exact pointsUpdateMsg_no_forceReady _ _ m h4
    · exact pointsUpdateMsg_no_forceReady _ _ m h2
  · cases h

theorem start_selected_no_forceReady (s : GVState) (now : Int) (sel : List Nat)
    (confirm : Bool) (m : Msg) (h : m ∈ (start_selected_game s now sel confirm).2) :
    m.isForceReady = false := by
  unfold start_selected_game at h
  split at h
  · cases h
  split at h
  · cases h
  split at h
  · cases h
  split at h
  · cases h
  · unfold start_game_with_teams at h
    simp only [] at h
    split at h
    · cases h
    · obtain ⟨tid, _, hsend⟩ := List.mem_filterMap.mp h
      rw [sendToTeam_eq _ tid _ m hsend]
      rfl

theorem end_game_no_forceReady (s : GVState) (now : Int) (m : Msg)
    (h : m ∈ (end_game s now).2) : m.isForceReady = false := by
  unfold end_game at h
  simp only [] at h
  obtain ⟨tid, _, hsend⟩ := List.mem_filterMap.mp h
  rw [sendToTeam_eq _ tid _ m hsend]
  rfl

theorem award_no_forceReady (s : GVState) (tid : Nat) (cat : String) (m : Msg)
    (h : m ∈ (award_points s tid cat).2.2) : m.isForceReady = false := by
  unfold award_points at h
  split at h
  · simp only [] at h
    split at h
    · exact pointsUpdateMsg_no_forceReady _ _ m h
    split at h
    · exact pointsUpdateMsg_no_forceReady _ _ m h
    split at h
    · exact pointsUpdateMsg_no_forceReady _ _ m h
    · cases h
  · cases h

theorem scan_no_forceReady (s : GVState) (now : Int) (m : Msg)
    (h : m ∈ (update_gui_disable_scan s now).2) : m.isForceReady = false := by
  unfold update_gui_disable_scan at h
  simp only [] at h
  obtain ⟨p, _, hsend⟩ := List.mem_filterMap.mp h
  rw [sendToTeam_eq _ p.1 _ m hsend]
  rfl

/-- C7 (amended): the Coordinator never sends `FORCE_READY` on any event;
`start_game_with_teams` only asks the operator to confirm unready teams and
then sends `GAME_START` alone (the OperatorProxy's `FORCE_READY` handler is
never triggered by this Coordinator). -/
theorem coordinator_never_sends_force_ready (s : GVState) (e : Event) (m : Msg)
    (hm : m ∈ emit s e) : m.isForceReady = false := by
  cases e with
  | register tid tname rname ip port lp now =>
    rw [mem_sendToTeam_toList (register_team s tid tname rname ip port lp now)
      tid (Msg.registerAck tid) m hm]
    rfl
  | heartbeat tid ip port now => cases hm
  | hitReport hd now => exact process_hit_no_forceReady s now hd m hm
  | readyStatus tid r => cases hm
  | startGame sel confirm now => exact start_selected_no_forceReady s now sel confirm m hm
  | endGame now => exact end_game_no_forceReady s now m hm
  | award tid cat => exact award_no_forceReady s tid cat m hm
  | scan now => exact scan_no_forceReady s now m hm

/-- C7 witness: a concrete emitted message, checked not to be `FORCE_READY`
via the theorem. -/
theorem coordinator_never_sends_force_ready_witness :
    (Msg.gameStart 1 game_duration).isForceReady = false :=
  coordinator_never_sends_force_ready (run regAB) (.startGame [1] true 50)
    (Msg.gameStart 1 game_duration) (by decide)

/-- C7 counterexample: team 1 is registered but not ready; starting a match
with team 1 selected (operator confirming the "not all ready" dialog) emits
exactly one `GAME_START` message and no `FORCE_READY`, contradicting the
claim that `ForceReady` is sent immediately before `MatchStart` for any
unready participant. -/
theorem start_with_unready_sends_only_game_start :
    ((run regAB).teams 1).map Team.ready = some false ∧
    emit (run regAB) (.startGame [1] true 50) = [Msg.gameStart 1 game_duration] ∧
    (emit (run regAB) (.startGame [1] true 50)).all (fun m => !m.isForceReady) = true := by
  decide

end LaserTag

namespace LaserTag

/-- C1 (amended): the Coordinator processes a `HIT_REPORT` regardless of
match phase.  Even with `game_active = false`, a report naming two
registered teams is recorded in `hit_log` and fully scored; only reports
naming an unregistered team are dropped silently. -/
theorem hit_processed_regardless_of_phase (s : GVState) (now : Int) (hd : HitData)
    (hph : s.game_active = false)
    (ha : (s.teams hd.attacking_team).isSome = true)
    (hb : (s.teams hd.defending_team).isSome = true) :
    (process_hit s now hd).1.hit_log = s.hit_log ++ [mkHit hd now] ∧
    ((process_hit s now hd).1.teams hd.attacking_team).map Team.kills
      = (s.teams hd.attacking_team).map (fun tm => tm.kills + 1) ∧
    ((process_hit s now hd).1.teams hd.attacking_team).map Team.points
      = (s.teams hd.attacking_team).map (fun tm => tm.points + points_per_hit) ∧
    ((process_hit s now hd).1.teams hd.defending_team).map Team.deaths
      = (s.teams hd.defending_team).map (fun tm => tm.deaths + 1) := by
  obtain ⟨h1, _, h3, h4, h5⟩ := process_hit_effect s now hd ha hb
  exact ⟨h1, h3, h4, h5⟩

/-- C1 witness: the theorem applied to the concrete state after `regAB`
(no game started, so `game_active = false`). -/
theorem hit_processed_regardless_of_phase_witness :
    (process_hit (run regAB) 5 ⟨1, 2, 5, 5⟩).1.hit_log
      = (run regAB).hit_log ++ [mkHit ⟨1, 2, 5, 5⟩ 5] :=
  (hit_processed_regardless_of_phase (run regAB) 5 ⟨1, 2, 5, 5⟩
    (by decide) (by decide) (by decide)).1

/-- C1 counterexample: after registering teams 1 and 2 (no match started,
`game_active = false`), a `HIT_REPORT` of team 1 on team 2 is recorded
(one hit in the log, team 1 gains 10 points) and messages are sent, so the
report is neither dropped nor silent. -/
theorem hit_while_inactive_recorded :
    (run regAB).game_active = false ∧
    (run (regAB ++ [.hitReport ⟨1, 2, 5, 5⟩ 5])).hit_log.length = 1 ∧
    ((run (regAB ++ [.hitReport ⟨1, 2, 5, 5⟩ 5])).teams 1).map Team.points = some 10 ∧
    emit (run regAB) (.hitReport ⟨1, 2, 5, 5⟩ 5) ≠ [] := by decide

/-- C2 (amended): self-hit reports are only suppressed at the RobotAgent:
`IRController.on_hit_received` ignores a decode of its own team id and
sends nothing.  The Coordinator itself does not check
`attacker_id = defender_id`: a self-hit report naming a registered team is
recorded and increments that team's points, kills and deaths. -/
theorem self_hit_dropped_only_at_robot :
    (∀ (cfg : IRConfig) (st : IRState) (now : Int),
      ir_on_hit_received cfg st now st.team_id = (st, false)) ∧
    (∀ (s : GVState) (now : Int) (hd : HitData),
      hd.attacking_team = hd.defending_team →
      (s.teams hd.attacking_team).isSome = true →
      (process_hit s now hd).1.hit_log = s.hit_log ++ [mkHit hd now] ∧
      ((process_hit s now hd).1.teams hd.attacking_team).map Team.kills
        = (s.teams hd.attacking_team).map (fun tm => tm.kills + 1) ∧
      ((process_hit s now hd).1.teams hd.attacking_team).map Team.points
        = (s.teams hd.attacking_team).map (fun tm => tm.points + points_per_hit) ∧
      ((process_hit s now hd).1.teams hd.defending_team).map Team.deaths
        = (s.teams hd.defending_team).map (fun tm => tm.deaths + 1)) := by
  constructor
  · intro cfg st now
    unfold ir_on_hit_received
    split
    · rfl
    · rw [if_pos rfl]
  · intro s now hd had ha
    have hb : (s.teams hd.defending_team).isSome = true := by rw [← had]; exact ha
    obtain ⟨h1, _, h3, h4, h5⟩ := process_hit_effect s now hd ha hb
    exact ⟨h1, h3, h4, h5⟩

/-- C2 witness: the two parts of the theorem applied at concrete inputs. -/
theorem self_hit_dropped_only_at_robot_witness :
    ir_on_hit_received ⟨10, 2⟩ ⟨1, false, 0, 0, 0, 0, [], some 0⟩ 3 1
      = (⟨1, false, 0, 0, 0, 0, [], some 0⟩, false) ∧
    (process_hit (run regAB) 3 ⟨1, 1, 3, 3⟩).1.hit_log
      = (run regAB).hit_log ++ [mkHit ⟨1, 1, 3, 3⟩ 3] :=
  ⟨self_hit_dropped_only_at_robot.1 ⟨10, 2⟩ ⟨1, false, 0, 0, 0, 0, [], some 0⟩ 3,
   (self_hit_dropped_only_at_robot.2 (run regAB) 3 ⟨1, 1, 3, 3⟩ rfl (by decide)).1⟩

/-- C2 counterexample: during a running match a self-hit report
`{attacker = 1, defender = 1}` is not dropped: team 1's points, kills and
deaths all change and the hit is logged. -/
theorem self_hit_scored_by_coordinator :
    ((run (regAB ++ [.startGame [1, 2] true 0, .hitReport ⟨1, 1, 3, 3⟩ 3])).teams 1).map
        Team.points = some 10 ∧
    ((run (regAB ++ [.startGame [1, 2] true 0, .hitReport ⟨1, 1, 3, 3⟩ 3])).teams 1).map
        Team.kills = some 1 ∧
    ((run (regAB ++ [.startGame [1, 2] true 0, .hitReport ⟨1, 1, 3, 3⟩ 3])).teams 1).map
        Team.deaths = some 1 ∧
    (run (regAB ++ [.startGame [1, 2] true 0, .hitReport ⟨1, 1, 3, 3⟩ 3])).hit_log.length
      = 1 := by decide

/-- C3 (amended): the Coordinator never consults `disabled_robots` for the
attacker: a `HIT_REPORT` whose attacker is currently disabled
(`disabled_until > now`) is recorded and credited exactly like any other.
The disable is enforced only on the robot itself, whose `fire` refuses
while `is_hit` is set. -/
theorem disabled_attacker_hit_still_recorded (s : GVState) (now u : Int) (hd : HitData)
    (hdis : lookupD s.disabled_robots hd.attacking_team = some u) (hlt : now < u)
    (hne : hd.attacking_team ≠ hd.defending_team)
    (ha : (s.teams hd.attacking_team).isSome = true)
    (hb : (s.teams hd.defending_team).isSome = true) :
    ((process_hit s now hd).1.hit_log = s.hit_log ++ [mkHit hd now] ∧
     (mkHit hd now).attacking_team = hd.attacking_team ∧
     ((process_hit s now hd).1.teams hd.attacking_team).map Team.kills
       = (s.teams hd.attacking_team).map (fun tm => tm.kills + 1)) ∧
    (∀ (cfg : IRConfig) (st : IRState) (n2 : Int),
      st.is_hit = true → ir_fire cfg st n2 = (false, st)) := by
  obtain ⟨h1, _, h3, _, _⟩ := process_hit_effect s now hd ha hb
  refine ⟨⟨h1, rfl, h3⟩, ?_⟩
  intro cfg st n2 hh
  unfold ir_fire
  rw [if_pos hh]

/-- C3 witness: the theorem applied in the state of `evsDisabled`, where
team 1 is disabled until t = 15, to a hit of team 1 on team 3 at t = 10. -/
theorem disabled_attacker_hit_still_recorded_witness :
    (process_hit (run evsDisabled) 10 ⟨1, 3, 10, 10⟩).1.hit_log
      = (run evsDisabled).hit_log ++ [mkHit ⟨1, 3, 10, 10⟩ 10] :=
  ((disabled_attacker_hit_still_recorded (run evsDisabled) 10 15 ⟨1, 3, 10, 10⟩
    (by decide) (by decide) (by decide) (by decide) (by decide)).1).1

/-- C3 counterexample: in `evsDisabled` team 1 is disabled until t = 15; a
hit report naming team 1 as attacker at t = 10 is nonetheless recorded
(hit log grows to 2, team 1's kill counter goes from 0 to 1). -/
theorem disabled_attacker_credited :
    lookupD (run evsDisabled).disabled_robots 1 = some 15 ∧
    (10 : Int) < 15 ∧
    ((run evsDisabled).teams 1).map Team.kills = some 0 ∧
    (run (evsDisabled ++ [.hitReport ⟨1, 3, 10, 10⟩ 10])).hit_log.length = 2 ∧
    ((run (evsDisabled ++ [.hitReport ⟨1, 3, 10, 10⟩ 10])).teams 1).map Team.kills
      = some 1 := by decide

/-- C4 (amended): in every reachable Coordinator state in which a match is
running, every participant's `kills` equals the number of hit-log records
naming it as attacker and its `deaths` the number naming it as defender.
The unrestricted claim fails because `start_game_with_teams` clears the
whole `hit_log` but resets scores only for the selected teams. -/
theorem participant_scores_match_hit_log (evs : List Event)
    (hact : (run evs).game_active = true) (t : Nat) (ht : t ∈ parts (run evs)) :
    ∃ tm, (run evs).teams t = some tm ∧
      tm.kills = countAtt t (run evs).hit_log ∧
      tm.deaths = countDef t (run evs).hit_log :=
  scoreInv_run evs hact t ht

/-- C4 witness: the invariant instantiated in a running two-team match. -/
theorem participant_scores_match_hit_log_witness :
    ∃ tm, (run (regAB ++ [.startGame [1, 2] true 0])).teams 1 = some tm ∧
      tm.kills = countAtt 1 (run (regAB ++ [.startGame [1, 2] true 0])).hit_log ∧
      tm.deaths = countDef 1 (run (regAB ++ [.startGame [1, 2] true 0])).hit_log :=
  participant_scores_match_hit_log (regAB ++ [.startGame [1, 2] true 0])
    (by decide) 1 (by decide)

/-- C4 counterexample: after the second match of `evsTwoMatches` starts
without team 2, team 2 still has `kills = 1` from the first match while the
cleared hit log contains no record with attacker 2 — so the claim fails for
team 2 in a reachable state (even one with a running match). -/
theorem nonparticipant_kills_dangling :
    (run evsTwoMatches).game_active = true ∧
    ((run evsTwoMatches).teams 2).map Team.kills = some 1 ∧
    countAtt 2 (run evsTwoMatches).hit_log = 0 := by decide

end LaserTag

namespace LaserTag

theorem award_points_none (s : GVState) (tid : Nat) (cat : String)
    (hs : s.teams tid = none) : award_points s tid cat = (404, s, []) := by
  unfold award_points
  rw [hs]

theorem award_points_some (s : GVState) (tid : Nat) (cat : String) (tm : Team)
    (hs : s.teams tid = some tm) :
    award_points s tid cat =
      if cat = "tesseract_retrieval" then
        (200,
         modifyTeam s tid (fun tm =>
           { tm with points := tm.points + points_tesseract_retrieval }),
         pointsUpdateMsg (modifyTeam s tid (fun tm =>
           { tm with points := tm.points + points_tesseract_retrieval })) tid)
      else if cat = "tesseract_steal" then
        (200,
         modifyTeam s tid (fun tm =>
           { tm with points := tm.points + points_tesseract_steal }),
         pointsUpdateMsg (modifyTeam s tid (fun tm =>
           { tm with points := tm.points + points_tesseract_steal })) tid)
      else if cat = "tesseract_possession" then
        (200,
         modifyTeam s tid (fun tm =>
           { tm with points := tm.points + points_tesseract_possession }),
         pointsUpdateMsg (modifyTeam s tid (fun tm =>
           { tm with points := tm.points + points_tesseract_possession })) tid)
      else (400, s, []) := by
  unfold award_points
  rw [hs]

/-- C5 (amended): the referee POST handler checks only that the team is
known and the category is one of the three Tesseract categories.  It never
returns 403 and never consults the award window (`can_award_points` is
computed only for `GET /api/teams` and enforced in the browser page): a
valid award succeeds with 200 and adds the category's points even when
`game_active` is false and no grace period is running; 400 is returned for
a known team with an unknown category and 404 for an unknown team, both
leaving the state unchanged. -/
theorem award_ignores_game_window (s : GVState) (tid : Nat) (cat : String) :
    (award_points s tid cat).1 ≠ 403 ∧
    (s.teams tid = none →
      (award_points s tid cat).1 = 404 ∧ (award_points s tid cat).2.1 = s) ∧
    ((s.teams tid).isSome = true →
      cat ≠ "tesseract_retrieval" → cat ≠ "tesseract_steal" →
      cat ≠ "tesseract_possession" →
      (award_points s tid cat).1 = 400 ∧ (award_points s tid cat).2.1 = s) ∧
    ((s.teams tid).isSome = true → cat = "tesseract_retrieval" →
      (award_points s tid cat).1 = 200 ∧
      ((award_points s tid cat).2.1.teams tid).map Team.points
        = (s.teams tid).map (fun tm => tm.points + points_tesseract_retrieval)) ∧
    ((s.teams tid).isSome = true → cat = "tesseract_steal" →
      (award_points s tid cat).1 = 200 ∧
      ((award_points s tid cat).2.1.teams tid).map Team.points
        = (s.teams tid).map (fun tm => tm.points + points_tesseract_steal)) ∧
    ((s.teams tid).isSome = true → cat = "tesseract_possession" →
      (award_points s tid cat).1 = 200 ∧
      ((award_points s tid cat).2.1.teams tid).map Team.points
        = (s.teams tid).map (fun tm => tm.points + points_tesseract_possession)) := by
  cases hs : s.teams tid with
  | none =>
    refine ⟨?_, fun _ => ?_, fun hsome _ _ _ => ?_, fun hsome _ => ?_,
      fun hsome _ => ?_, fun hsome _ => ?_⟩
    · rw [award_points_none s tid cat hs]
      show (404 : Nat) ≠ 403
      decide
    · rw [award_points_none s tid cat hs]
      exact ⟨rfl, rfl⟩
    all_goals exact Bool.noConfusion hsome
  | some tm =>
    refine ⟨?_, fun hnone => ?_, fun _ h1 h2 h3 => ?_, fun _ hc => ?_,
      fun _ hc => ?_, fun _ hc => ?_⟩
    · rw [award_points_some s tid cat tm hs]
      split
      · show (200 : Nat) ≠ 403
        decide
      split
      · show (200 : Nat) ≠ 403
        decide
      split
      · show (200 : Nat) ≠ 403
        decide
      · show (400 : Nat) ≠ 403
        decide
    · cases hnone
    · rw [award_points_some s tid cat tm hs, if_neg h1, if_neg h2, if_neg h3]
      exact ⟨rfl, rfl⟩
    · rw [award_points_some s tid cat tm hs, if_pos hc]
      exact ⟨rfl, by simp [modifyTeam_teams, hs]⟩
    · rw [award_points_some s tid cat tm hs, if_neg (by rw [hc]; decide), if_pos hc]
      exact ⟨rfl, by simp [modifyTeam_teams, hs]⟩
    · rw [award_points_some s tid cat tm hs, if_neg (by rw [hc]; decide),
        if_neg (by rw [hc]; decide), if_pos hc]
      exact ⟨rfl, by simp [modifyTeam_teams, hs]⟩

/-- C5 witness: an award to registered team 1 in a state with no game ever
started (no award window open). -/
theorem award_ignores_game_window_witness :
    (award_points (run regAB) 1 "tesseract_steal").1 = 200 :=
  ((award_ignores_game_window (run regAB) 1 "tesseract_steal").2.2.2.2.1
    (by decide) rfl).1

/-- C5 counterexample: with no match running and no grace window
(`can_award_points` is false), an award to registered team 1 still returns
200 — not 403 — and changes the team's points from 0 to 30. -/
theorem award_outside_window_succeeds :
    can_award_points (run regAB) 1000 = false ∧
    (award_points (run regAB) 1 "tesseract_possession").1 = 200 ∧
    ((award_points (run regAB) 1 "tesseract_possession").2.1.teams 1).map Team.points
      = some 30 := by decide

end LaserTag

namespace LaserTag

/-- C6 (amended): the Coordinator performs no deduplication of hit reports:
processing the same `(defender, attacker, t_robot)` report twice, at any
two reception times (in particular less than 300 ms apart), appends two hit
records and credits the attacker with two kills. -/
theorem duplicate_hit_double_counted (s : GVState) (n1 n2 : Int) (hd : HitData)
    (ha : (s.teams hd.attacking_team).isSome = true)
    (hb : (s.teams hd.defending_team).isSome = true) :
    (process_hit (process_hit s n1 hd).1 n2 hd).1.hit_log.length
      = s.hit_log.length + 2 ∧
    ((process_hit (process_hit s n1 hd).1 n2 hd).1.teams hd.attacking_team).map Team.kills
      = (s.teams hd.attacking_team).map (fun tm => tm.kills + 2) := by
  obtain ⟨l1, isS1, k1, _, _⟩ := process_hit_effect s n1 hd ha hb
  have ha1 : ((process_hit s n1 hd).1.teams hd.attacking_team).isSome = true := by
    rw [isS1]; exact ha
  have hb1 : ((process_hit s n1 hd).1.teams hd.defending_team).isSome = true := by
    rw [isS1]; exact hb
  obtain ⟨l2, _, k2, _, _⟩ := process_hit_effect (process_hit s n1 hd).1 n2 hd ha1 hb1
  constructor
  · rw [l2, l1]
    simp
  · obtain ⟨ta, hta⟩ := Option.isSome_iff_exists.mp ha
    obtain ⟨ta1, hta1⟩ := Option.isSome_iff_exists.mp ha1
    have k1' : ta1.kills = ta.kills + 1 := by
      rw [hta1, hta] at k1
      simpa using k1
    rw [k2, hta1, hta]
    simp [k1']

/-- C6 witness: the double-processing theorem applied in a running match. -/
theorem duplicate_hit_double_counted_witness :
    (process_hit (process_hit (run (regAB ++ [.startGame [1, 2] true 0])) 5
        ⟨1, 2, 5, 5⟩).1 5 ⟨1, 2, 5, 5⟩).1.hit_log.length
      = (run (regAB ++ [.startGame [1, 2] true 0])).hit_log.length + 2 :=
  (duplicate_hit_double_counted (run (regAB ++ [.startGame [1, 2] true 0])) 5 5
    ⟨1, 2, 5, 5⟩ (by decide) (by decide)).1

/-- C6 counterexample: two identical hit reports received at the same
instant (0 ms apart, well within the claimed 300 ms window) yield two hit
records and double credit, refuting "recorded once, credited once". -/
theorem duplicate_hit_counted_twice :
    (run (regAB ++ [.startGame [1, 2] true 0, .hitReport ⟨1, 2, 5, 5⟩ 5,
        .hitReport ⟨1, 2, 5, 5⟩ 5])).hit_log.length = 2 ∧
    ((run (regAB ++ [.startGame [1, 2] true 0, .hitReport ⟨1, 2, 5, 5⟩ 5,
        .hitReport ⟨1, 2, 5, 5⟩ 5])).teams 1).map Team.kills = some 2 ∧
    ((run (regAB ++ [.startGame [1, 2] true 0, .hitReport ⟨1, 2, 5, 5⟩ 5,
        .hitReport ⟨1, 2, 5, 5⟩ 5])).teams 1).map Team.points = some 20 := by decide

/-- C8 (amended): the Coordinator's expiry scan does remove expired entries
and emit `ROBOT_ENABLED`, but it is not the sole re-enabling mechanism:
`IRController.update` clears its own `is_hit` once the local clock passes
the disable duration, and the OperatorProxy's `update_gui` likewise clears
`is_disabled` once `disabled_until` passes, both without any message from
the Coordinator. -/
theorem reenable_not_only_from_coordinator :
    (∀ (s : GVState) (now : Int) (tid : Nat) (u : Int),
      (tid, u) ∈ s.disabled_robots → u ≤ now →
      (tid, u) ∉ (update_gui_disable_scan s now).1.disabled_robots ∧
      ∀ m, sendToTeam s tid (Msg.robotEnabled tid now) = some m →
        m ∈ (update_gui_disable_scan s now).2) ∧
    (∀ (cfg : IRConfig) (st : IRState) (now : Int),
      st.is_hit = true → cfg.hit_disable_time ≤ now - st.hit_time →
      (ir_update cfg st now).is_hit = false) ∧
    (∀ (st : LaptopDisabled) (now : Int),
      st.is_disabled = true → st.disabled_until ≤ now →
      (laptop_update_gui_disabled st now).is_disabled = false) := by
  refine ⟨?_, ?_, ?_⟩
  · intro s now tid u hmem hle
    constructor
    · intro hcon
      have hmf : (tid, u) ∈ s.disabled_robots.filter (fun p => decide (now < p.2)) := hcon
      rw [List.mem_filter] at hmf
      have := of_decide_eq_true hmf.2
      omega
    · intro m hsend
      exact List.mem_filterMap.mpr
        ⟨(tid, u), List.mem_filter.mpr ⟨hmem, decide_eq_true hle⟩, hsend⟩
  · intro cfg st now h1 h2
    unfold ir_update
    rw [if_neg (by simp [h1])]
    simp only []
    rw [if_pos h2]
  · intro st now h1 h2
    unfold laptop_update_gui_disabled
    rw [if_pos h1]
    simp only []
    rw [if_pos (max_le (le_refl 0) (by omega))]

/-- C8 witness: the three parts of the theorem at concrete inputs (the
scan applied in the state of `evsDisabled`, where team 1 is disabled until
t = 15, at t = 20). -/
theorem reenable_not_only_from_coordinator_witness :
    (1, (15 : Int)) ∉ (update_gui_disable_scan (run evsDisabled) 20).1.disabled_robots ∧
    (ir_update ⟨10, 2⟩ ⟨2, true, 1, 0, 10, 0, [], some 0⟩ 10).is_hit = false ∧
    (laptop_update_gui_disabled ⟨true, "Alpha", 15, 5⟩ 20).is_disabled = false :=
  ⟨(reenable_not_only_from_coordinator.1 (run evsDisabled) 20 1 15
      (by decide) (by decide)).1,
   reenable_not_only_from_coordinator.2.1 ⟨10, 2⟩ ⟨2, true, 1, 0, 10, 0, [], some 0⟩ 10
      rfl (by decide),
   reenable_not_only_from_coordinator.2.2 ⟨true, "Alpha", 15, 5⟩ 20 rfl (by decide)⟩

/-- C8 counterexample: both the RobotAgent and the OperatorProxy clear
their own disabled state when their local timer reaches the disable
duration, with no `ROBOT_ENABLED` involved — refuting "the defender never
self-re-enables based on a local timer". -/
theorem local_timer_self_reenable :
    (⟨2, true, 1, 0, 10, 0, [], some 0⟩ : IRState).is_hit = true ∧
    (ir_update ⟨10, 2⟩ ⟨2, true, 1, 0, 10, 0, [], some 0⟩ 10).is_hit = false ∧
    (⟨true, "Alpha", 15, 5⟩ : LaptopDisabled).is_disabled = true ∧
    (laptop_update_gui_disabled ⟨true, "Alpha", 15, 5⟩ 20).is_disabled = false := by
  decide

/-- C9: `POINTS_UPDATE` delivery is idempotent on both receivers, because
both handlers assign the absolute totals carried by the message: applying
the same message twice to the laptop's `{points, hits_taken}` or the Pi
client's `{points, kills, deaths}` equals applying it once. -/
theorem points_update_idempotent :
    (∀ (st : LaptopScore) (m : PointsMsg),
      laptop_points_update (laptop_points_update st m) m = laptop_points_update st m) ∧
    (∀ (st : ClientScore) (m : PointsMsg),
      client_points_update (client_points_update st m) m = client_points_update st m) := by
  constructor
  · intro st m
    obtain ⟨mp, mk, md⟩ := m
    cases mp <;> cases md <;> rfl
  · intro st m
    rfl

theorem register_team_existing (s : GVState) (tid : Nat) (tname rname ip : String)
    (port : Nat) (now : Int) (tm : Team) (h : s.teams tid = some tm) :
    (∀ p, register_team s tid tname rname ip port (some p) now
        = modifyTeam s tid (fun tm =>
            { tm with laptop_ip := ip, listen_port := some p, last_heartbeat := now })) ∧
    register_team s tid tname rname ip port none now = s := by
  constructor
  · intro p
    unfold register_team
    rw [h]
  · unfold register_team
    rw [h]

/-- C10: re-registering an already-known team (REGISTER or
DISCOVERY_RESPONSE, both routed to `register_team`) updates only the
connection fields `laptop_ip`, `listen_port` and `last_heartbeat` — and
only when the message carries a `listen_port`, otherwise nothing — leaving
points, kills, deaths, the ready flag, both names, every other team and the
rest of the Coordinator state unchanged. -/
theorem reregistration_updates_connection_only (s : GVState) (tid : Nat)
    (tname rname ip : String) (port : Nat) (now : Int) (tm : Team)
    (h : s.teams tid = some tm) :
    (∀ p, (register_team s tid tname rname ip port (some p) now).teams tid
        = some { tm with laptop_ip := ip, listen_port := some p, last_heartbeat := now }) ∧
    register_team s tid tname rname ip port none now = s ∧
    (∀ lp t, t ≠ tid →
      (register_team s tid tname rname ip port lp now).teams t = s.teams t) ∧
    (∀ lp,
      (register_team s tid tname rname ip port lp now).roster = s.roster ∧
      (register_team s tid tname rname ip port lp now).game_active = s.game_active ∧
      (register_team s tid tname rname ip port lp now).hit_log = s.hit_log ∧
      (register_team s tid tname rname ip port lp now).disabled_robots
        = s.disabled_robots ∧
      (register_team s tid tname rname ip port lp now).participants = s.participants ∧
      ((register_team s tid tname rname ip port lp now).teams tid).map Team.points
        = some tm.points ∧
      ((register_team s tid tname rname ip port lp now).teams tid).map Team.kills
        = some tm.kills ∧
      ((register_team s tid tname rname ip port lp now).teams tid).map Team.deaths
        = some tm.deaths ∧
      ((register_team s tid tname rname ip port lp now).teams tid).map Team.ready
        = some tm.ready ∧
      ((register_team s tid tname rname ip port lp now).teams tid).map Team.team_name
        = some tm.team_name ∧
      ((register_team s tid tname rname ip port lp now).teams tid).map Team.robot_name
        = some tm.robot_name) := by
  obtain ⟨hsome, hnone⟩ := register_team_existing s tid tname rname ip port now tm h
  refine ⟨?_, hnone, ?_, ?_⟩
  · intro p
    rw [hsome p]
    simp [modifyTeam_teams, h]
  · intro lp t ht
    cases lp with
    | none => rw [hnone]
    | some p =>
      rw [hsome p]
      simp [modifyTeam_teams, ht]
  · intro lp
    cases lp with
    | none =>
      rw [hnone]
      simp [h]
    | some p =>
      rw [hsome p]
      simp [modifyTeam_teams, h, modifyTeam]

/-- C10 witness: a re-registration with no listen port leaves the state of
`regAB` untouched. -/
theorem reregistration_updates_connection_only_witness :
    register_team (run regAB) 1 "X" "Y" "10.9.9.9" 9 none 7 = run regAB := by
  obtain ⟨tm, htm⟩ := Option.isSome_iff_exists.mp
    (show ((run regAB).teams 1).isSome = true by decide)
  exact (reregistration_updates_connection_only (run regAB) 1 "X" "Y" "10.9.9.9"
    9 7 tm htm).2.1

end LaserTag
